import Mathlib

/-!
Shallow embedding of `src/script.py` (Marycherme/bugs-hunt): a cross-chain
event listener that polls a source chain for `TokensLocked` events,
deduplicates by transaction id, and relays each event to an HTTP endpoint
with bounded retries.

The embedding models:
- `StateManager` (lines 133-150) as a deduplication set over transaction ids;
- `TransactionRelayer.relay_transaction_data` (lines 165-195) as a loop over
  per-attempt HTTP outcomes supplied by an oracle;
- `CrossChainEventListener._process_event` (lines 228-253);
- one iteration of the `while True` loop of `CrossChainEventListener.run`
  (lines 269-302), with the environment (connection status, chain height,
  log query result, relay outcomes) passed in explicitly.
-/

namespace BugsHunt

/-- Decoded `args` of a `TokensLocked` event log (ABI at lines 43-83):
`destinationChainId : uint256`, `recipient : address`, `amount : uint256`,
`transactionId : bytes32` (carried here as its hex string, the result of
`.hex()` at line 231). The indexed `sender` field is never read by the
listener and is omitted. -/
structure EventArgs where
  destinationChainId : Nat
  recipient : String
  amount : Nat
  transactionId : String
  deriving Repr, DecidableEq

/-- A raw event log as handed to `_process_event`. `args = none` models a
log whose `args` dictionary is absent or malformed, so that the field
accesses at lines 231 and 239-246 raise (the Python `KeyError` path caught
at line 252); `args = some a` models a well-formed log. -/
structure RawEvent where
  args : Option EventArgs
  transactionHash : String
  blockNumber : Nat
  deriving Repr, DecidableEq

/-- The `event_data` dictionary built at lines 239-246 of
`_process_event`: six entries, `amount` converted to a decimal string by
Python `str(...)` (line 243), modelled by `Nat.repr`. -/
structure EventData where
  transactionId : String
  destinationChainId : Nat
  recipient : String
  amount : String
  transactionHash : String
  blockNumber : Nat
  deriving Repr, DecidableEq

/-- Lines 239-246: build `event_data` from a decoded event. -/
def mkEventData (a : EventArgs) (e : RawEvent) : EventData :=
  { transactionId := a.transactionId
    destinationChainId := a.destinationChainId
    recipient := a.recipient
    amount := Nat.repr a.amount
    transactionHash := e.transactionHash
    blockNumber := e.blockNumber }

/-- A JSON value appearing in the relay request body: the payload at lines
170-176 only ever holds strings and integers. -/
inductive JsonValue where
  | str (s : String)
  | int (n : Nat)
  deriving Repr, DecidableEq

/-- Lines 170-176: the JSON body POSTed by `relay_transaction_data`, as an
ordered association list of key/value pairs (exactly the keys written in
the Python dict literal, in source order). -/
def relayPayload (event_data : EventData) : List (String × JsonValue) :=
  [("sourceTransactionId", JsonValue.str event_data.transactionId),
   ("destinationChainId", JsonValue.int event_data.destinationChainId),
   ("recipient", JsonValue.str event_data.recipient),
   ("amount", JsonValue.str event_data.amount),
   ("sourceTransactionHash", JsonValue.str event_data.transactionHash)]

/-- Outcome of one `self.session.post(...)` call at line 183: either an HTTP
response with a status code (after any internal redirect handling by
`requests`), or a transport-level failure (`requests.exceptions.RequestException`
raised without a response: timeout, connection error, redirect loop, ...). -/
inductive AttemptOutcome where
  | response (status : Nat)
  | transportError
  deriving Repr, DecidableEq

/-- `response.raise_for_status()` (line 184) raises `requests.HTTPError`
exactly when `400 <= status_code < 600`; `HTTPError` is a
`RequestException`, so it is caught by the handler at line 188. An attempt
succeeds (reaches the `return True` at line 187) iff the post call returned
a response whose status is outside `[400, 600)`. -/
def attemptSucceeds : AttemptOutcome → Bool
  | AttemptOutcome.response status => !(400 ≤ status && status < 600)
  | AttemptOutcome.transportError => false

/-- Result of one call to `relay_transaction_data`: the returned boolean,
the number of POST attempts actually made, and the list of back-off sleep
durations (seconds) executed between attempts, in order. -/
structure RelayOut where
  success : Bool
  posts : Nat
  sleeps : List Nat
  deriving Repr, DecidableEq

/-- The `for attempt in range(max_retries)` loop of lines 181-194.
`oracle n` is the outcome of the post call on attempt index `n`
(0-indexed); `fuel` is the number of loop iterations remaining. On success:
`return True` (line 187). On failure with `attempt < max_retries - 1`:
`time.sleep(2 ** attempt)` (line 191) then next iteration; otherwise
`return False` (line 194). An exhausted range falls through to the
`return False` at line 195 (unreachable when `fuel = maxRetries > 0`). -/
def relayLoop (oracle : Nat → AttemptOutcome) (maxRetries : Nat) :
    Nat → Nat → RelayOut
  | _, 0 => ⟨false, 0, []⟩
  | attempt, fuel + 1 =>
    if attemptSucceeds (oracle attempt) then
      ⟨true, 1, []⟩
    else if attempt < maxRetries - 1 then
      let r := relayLoop oracle maxRetries (attempt + 1) fuel
      ⟨r.success, r.posts + 1, 2 ^ attempt :: r.sleeps⟩
    else
      ⟨false, 1, []⟩

/-- `TransactionRelayer.relay_transaction_data` (lines 165-195) with
`max_retries = 3` (line 180). The payload (lines 170-176) is built from
`event_data` but does not influence control flow; the per-attempt HTTP
outcomes are supplied by `oracle`. -/
def relay_transaction_data (event_data : EventData)
    (oracle : Nat → AttemptOutcome) : RelayOut :=
  relayLoop oracle 3 0 3

/-- The `_processed_transaction_ids` set of `StateManager` (line 140),
modelled as a duplicate-free list of transaction-id strings. -/
abbrev DedupSet := List String

/-- `StateManager.is_processed` (lines 143-145): membership test. -/
def is_processed (s : DedupSet) (tx_id : String) : Bool :=
  s.contains tx_id

/-- `StateManager.mark_as_processed` (lines 147-150): `set.add`, a no-op
when the id is already present. -/
def mark_as_processed (s : DedupSet) (tx_id : String) : DedupSet :=
  if s.contains tx_id then s else tx_id :: s

/-- Observable outcome of one `_process_event` call: the deduplication set
afterwards, the number of HTTP POST attempts made on behalf of this event,
and whether `relay_transaction_data` was invoked at all. -/
structure ProcOut where
  dedup : DedupSet
  posts : Nat
  invokedRelay : Bool
  deriving Repr, DecidableEq

/-- `CrossChainEventListener._process_event` (lines 228-253). If the `args`
of the event are malformed the field accesses raise and the handler at line 252
swallows the error, leaving all state unchanged. Otherwise: dedup check
(lines 234-236), `event_data` construction (lines 239-246), relay
(line 249) and, only on relay success, `mark_as_processed` (line 250). -/
def process_event (dedup : DedupSet) (oracle : Nat → AttemptOutcome)
    (e : RawEvent) : ProcOut :=
  match e.args with
  | none => ⟨dedup, 0, false⟩
  | some a =>
    let tx_id_hex := a.transactionId
    if is_processed dedup tx_id_hex then
      ⟨dedup, 0, false⟩
    else
      let event_data := mkEventData a e
      let r := relay_transaction_data event_data oracle
      if r.success then
        ⟨mark_as_processed dedup tx_id_hex, r.posts, true⟩
      else
        ⟨dedup, r.posts, true⟩

/-- The `for event in events` loop of lines 291-292, processing events in
list order. `oracles i` supplies the per-attempt HTTP outcomes for the
`i`-th event of the list (0-indexed). Returns the final deduplication set,
the total POST count, and the per-event `invokedRelay` flags in order. -/
def process_events (dedup : DedupSet) (oracles : Nat → Nat → AttemptOutcome) :
    List RawEvent → Nat → DedupSet × Nat × List Bool
  | [], _ => (dedup, 0, [])
  | e :: rest, i =>
    let r := process_event dedup (oracles i) e
    let rr := process_events r.dedup oracles rest (i + 1)
    (rr.1, r.posts + rr.2.1, r.invokedRelay :: rr.2.2)

/-- Environment of one iteration of the `while True` loop in `run`
(lines 269-302): whether `self.connector.is_connected()` holds (line 271),
the result of `get_latest_block_number` (line 277; `Except.error` models the
call raising), the result of the log query (lines 283-288; `Except.error`
models `create_filter` / `get_all_entries` raising), and the per-event relay
oracles. -/
structure CycleEnv where
  connected : Bool
  height : Except Unit Nat
  logs : Except Unit (List RawEvent)
  oracles : Nat → Nat → AttemptOutcome

/-- Observable outcome of one loop iteration: cursor (`from_block`) and
deduplication set afterwards, the block range passed to the log query if
one was issued, total POSTs, per-event `invokedRelay` flags, and the
sequence of `time.sleep` durations executed (in seconds, in order). -/
structure CycleOut where
  from_block : Nat
  dedup : DedupSet
  queried : Option (Nat × Nat)
  posts : Nat
  invoked : List Bool
  sleeps : List Nat

/-- One iteration of the `while True` loop of `CrossChainEventListener.run`
(lines 269-302), given the polling interval (`POLLING_INTERVAL_SECONDS`),
the environment, and the pre-cycle state `(from_block, dedup)`.
Branches, in source order:
- connection lost (lines 271-275): reconnect, sleep 5, `continue` (the
  polling-interval sleep at line 302 is skipped);
- idle (lines 278-281): `from_block > to_block`, sleep the polling interval,
  `continue` — no log query, state untouched;
- scan (lines 283-295): query logs over `[from_block, to_block]`, process
  each event, then set `from_block := to_block + 1`; line 302 sleeps the
  polling interval;
- any exception raised inside the `try` (height query at line 277 or log
  query at lines 283-288) is caught at line 297: sleep 60 (line 300), then
  line 302 sleeps the polling interval; `from_block` keeps its pre-cycle
  value because the assignment at line 295 was never reached. -/
def run_cycle (interval : Nat) (env : CycleEnv) (from_block : Nat)
    (dedup : DedupSet) : CycleOut :=
  if !env.connected then
    ⟨from_block, dedup, none, 0, [], [5]⟩
  else
    match env.height with
    | Except.error _ => ⟨from_block, dedup, none, 0, [], [60, interval]⟩
    | Except.ok to_block =>
      if from_block > to_block then
        ⟨from_block, dedup, none, 0, [], [interval]⟩
      else
        match env.logs with
        | Except.error _ =>
          ⟨from_block, dedup, some (from_block, to_block), 0, [],
            [60, interval]⟩
        | Except.ok events =>
          let p := process_events dedup env.oracles events 0
          ⟨to_block + 1, p.1, some (from_block, to_block), p.2.1, p.2.2,
            [interval]⟩

/-! ### Sample concrete inputs, used by witnesses and counterexamples -/

/-- The synthetic event of spec §8: `transactionId = 0xAA..`,
`destinationChainId = 5`, `recipient = 0xBB..`, `amount = 1000`. -/
def sampleArgs : EventArgs :=
  ⟨5, "0xBB", 1000, "aa"⟩

/-- A well-formed raw event carrying `sampleArgs`. -/
def sampleEvent : RawEvent :=
  ⟨some sampleArgs, "0xdeadbeef", 42⟩

/-- The `event_data` dictionary built from `sampleEvent`. -/
def sampleEventData : EventData :=
  mkEventData sampleArgs sampleEvent

/-- A second decoded `args` record sharing the transaction id of
`sampleArgs` but differing in every other field. -/
def sampleArgs2 : EventArgs :=
  ⟨7, "0xCC", 999, "aa"⟩

/-- A raw event carrying `sampleArgs2`, with hash and block number also
different from `sampleEvent`. -/
def sampleEvent2 : RawEvent :=
  ⟨some sampleArgs2, "0xfeed", 43⟩

/-- A third decoded `args` record with a fresh transaction id. -/
def sampleArgs3 : EventArgs :=
  ⟨6, "0xDD", 123, "cc"⟩

/-- A raw event carrying `sampleArgs3`. -/
def sampleEvent3 : RawEvent :=
  ⟨some sampleArgs3, "0xcafe", 45⟩

/-- A raw event whose `args` are malformed: normalization fails on it. -/
def badEvent : RawEvent :=
  ⟨none, "0xbad", 44⟩

/-- An oracle making every post call fail at the transport level. -/
def allTransportError : Nat → AttemptOutcome :=
  fun _ => AttemptOutcome.transportError

/-- An oracle answering HTTP 200 to every post call. -/
def all200 : Nat → AttemptOutcome :=
  fun _ => AttemptOutcome.response 200

/-- A per-event oracle family answering HTTP 200 to every post call. -/
def oracles200 : Nat → Nat → AttemptOutcome :=
  fun _ _ => AttemptOutcome.response 200

/-! ### Helper lemmas -/

/-- The boolean returned by `relay_transaction_data` is the disjunction of
the three per-attempt success flags. -/
theorem relay_success_eq (d : EventData) (o : Nat → AttemptOutcome) :
    (relay_transaction_data d o).success =
      (attemptSucceeds (o 0) || attemptSucceeds (o 1) ||
        attemptSucceeds (o 2)) := by
  cases h0 : attemptSucceeds (o 0) <;> cases h1 : attemptSucceeds (o 1) <;>
    cases h2 : attemptSucceeds (o 2) <;>
      simp [relay_transaction_data, relayLoop, h0, h1, h2]

/-- An attempt succeeds iff the post call returned a response whose status
code lies outside `[400, 600)`. -/
theorem attemptSucceeds_iff (out : AttemptOutcome) :
    attemptSucceeds out = true ↔
      ∃ s, out = AttemptOutcome.response s ∧ ¬(400 ≤ s ∧ s < 600) := by
  cases out with
  | response s =>
    simp only [attemptSucceeds, Bool.not_eq_true']
    constructor
    · intro h
      refine ⟨s, rfl, ?_⟩
      intro hc
      simp [hc.1, hc.2] at h
    · intro h
      obtain ⟨t, ht, hts⟩ := h
      obtain rfl : s = t := by injection ht
      by_contra hb
      simp only [Bool.not_eq_false, Bool.and_eq_true, decide_eq_true_eq] at hb
      exact hts hb
  | transportError => simp [attemptSucceeds]

/-- After `mark_as_processed s t`, the id `t` tests as processed. -/
theorem is_processed_mark_self (s : DedupSet) (t : String) :
    is_processed (mark_as_processed s t) t = true := by
  unfold is_processed mark_as_processed
  split
  · assumption
  · simp

/-- `mark_as_processed s t` does not change membership of any other id. -/
theorem is_processed_mark_other (s : DedupSet) (t u : String) (h : u ≠ t) :
    is_processed (mark_as_processed s t) u = is_processed s u := by
  unfold is_processed mark_as_processed
  split
  · rfl
  · simp [h]

/-- A scanning cycle (connection live, height query answers `h`, cursor
`f ≤ h`, log query answers `evs`) queries `[f, h]`, processes the events,
and moves the cursor to `h + 1`. -/
theorem run_cycle_scan_eq (i h : Nat) (evs : List RawEvent)
    (orc : Nat → Nat → AttemptOutcome) (f : Nat) (d : DedupSet)
    (hfh : f ≤ h) :
    run_cycle i ⟨true, Except.ok h, Except.ok evs, orc⟩ f d =
      ⟨h + 1, (process_events d orc evs 0).1, some (f, h),
        (process_events d orc evs 0).2.1, (process_events d orc evs 0).2.2,
        [i]⟩ := by
  simp [run_cycle, Nat.not_lt.mpr hfh]

/-- The cursor never decreases across a cycle, whatever the environment. -/
theorem run_cycle_from_block_mono (i : Nat) (env : CycleEnv) (f : Nat)
    (d : DedupSet) : f ≤ (run_cycle i env f d).from_block := by
  obtain ⟨c, hgt, lg, orc⟩ := env
  cases c
  · simp [run_cycle]
  · cases hgt with
    | error u => simp [run_cycle]
    | ok h =>
      by_cases hfh : f > h
      · simp [run_cycle, hfh]
      · cases lg with
        | error u => simp [run_cycle, hfh]
        | ok evs =>
          rw [run_cycle_scan_eq i h evs orc f d (Nat.not_lt.mp hfh)]
          exact Nat.le_succ_of_le (Nat.not_lt.mp hfh)

/-! ### Claims -/

/-- Claim C1, counterexample: with every post call answered by HTTP 304 —
a status that is not 2xx — `relay_transaction_data` still returns `true` on
the first attempt, because `raise_for_status` (line 184) only raises for
statuses in `[400, 600)`. This refutes the claim that `true` is returned
only when a 2xx response is received. -/
theorem C1_counterexample :
    (relay_transaction_data sampleEventData
        (fun _ => AttemptOutcome.response 304)).success = true ∧
      ¬(200 ≤ 304 ∧ 304 < 300) :=
  ⟨rfl, by decide⟩

/-- Claim C1 (amended): `relay_transaction_data` returns `true` iff, within
the 3-attempt budget, some post call received an HTTP response whose status
code lies outside `[400, 600)` — i.e. any response `raise_for_status` does
not reject, which includes 1xx, 2xx and 3xx; every 4xx or 5xx response and
every transport-level failure counts as a failed attempt, and the function
returns `false` once all attempts are exhausted. -/
theorem C1_amended_thm (d : EventData) (o : Nat → AttemptOutcome) :
    (relay_transaction_data d o).success = true ↔
      ∃ k, k < 3 ∧ ∃ s, o k = AttemptOutcome.response s ∧
        ¬(400 ≤ s ∧ s < 600) := by
  rw [relay_success_eq]
  simp only [Bool.or_eq_true]
  constructor
  · rintro ((h | h) | h)
    · exact ⟨0, by omega, (attemptSucceeds_iff _).mp h⟩
    · exact ⟨1, by omega, (attemptSucceeds_iff _).mp h⟩
    · exact ⟨2, by omega, (attemptSucceeds_iff _).mp h⟩
  · rintro ⟨k, hk, hs⟩
    interval_cases k
    · exact Or.inl (Or.inl ((attemptSucceeds_iff _).mpr hs))
    · exact Or.inl (Or.inr ((attemptSucceeds_iff _).mpr hs))
    · exact Or.inr ((attemptSucceeds_iff _).mpr hs)

/-- Claim C2: against a target for which every attempt fails,
`relay_transaction_data` makes exactly 3 POST attempts, sleeps 1 second
after the first failed attempt and 2 seconds after the second (none after
the last), and returns `false`; moreover, for any outcomes whatsoever at
most 3 attempts are made, and no attempt follows a successful one (first
success at index `k` means exactly `k + 1` POSTs and a `true` return). -/
theorem C2_thm (d : EventData) (o : Nat → AttemptOutcome)
    (hfail : ∀ i, attemptSucceeds (o i) = false) :
    relay_transaction_data d o = ⟨false, 3, [1, 2]⟩ ∧
    (∀ d2 o2, (relay_transaction_data d2 o2).posts ≤ 3) ∧
    (∀ d2 o2 k, k < 3 → attemptSucceeds (o2 k) = true →
      (∀ j, j < k → attemptSucceeds (o2 j) = false) →
      (relay_transaction_data d2 o2).success = true ∧
      (relay_transaction_data d2 o2).posts = k + 1) := by
  refine ⟨?_, ?_, ?_⟩
  · simp [relay_transaction_data, relayLoop, hfail 0, hfail 1, hfail 2]
  · intro d2 o2
    cases h0 : attemptSucceeds (o2 0) <;> cases h1 : attemptSucceeds (o2 1) <;>
      cases h2 : attemptSucceeds (o2 2) <;>
        simp [relay_transaction_data, relayLoop, h0, h1, h2]
  · intro d2 o2 k hk hsucc hbefore
    interval_cases k
    · simp [relay_transaction_data, relayLoop, hsucc]
    · have h0 := hbefore 0 (by omega)
      simp [relay_transaction_data, relayLoop, h0, hsucc]
    · have h0 := hbefore 0 (by omega)
      have h1 := hbefore 1 (by omega)
      simp [relay_transaction_data, relayLoop, h0, h1, hsucc]

/-- Witness for `C2_thm`: a concrete oracle failing every attempt at the
transport level yields `⟨false, 3, [1, 2]⟩`. -/
theorem C2_witness :
    relay_transaction_data sampleEventData allTransportError =
      ⟨false, 3, [1, 2]⟩ :=
  (C2_thm sampleEventData allTransportError (fun _ => rfl)).1

/-- Claim C3: in `_process_event`, the transaction id is inserted into the
deduplication set iff the relay for that event returned success: an
already-processed event leaves the set unchanged without relaying; a fresh
event whose relay returns `true` yields exactly `mark_as_processed`; a
relay returning `false` leaves the set unchanged; and membership of the id
afterwards is equivalent to relay success. -/
theorem C3_thm (dedup : DedupSet) (o : Nat → AttemptOutcome) (e : RawEvent)
    (a : EventArgs) (he : e.args = some a) :
    (is_processed dedup a.transactionId = true →
      (process_event dedup o e).dedup = dedup) ∧
    (is_processed dedup a.transactionId = false →
      ((relay_transaction_data (mkEventData a e) o).success = true →
        (process_event dedup o e).dedup =
          mark_as_processed dedup a.transactionId) ∧
      ((relay_transaction_data (mkEventData a e) o).success = false →
        (process_event dedup o e).dedup = dedup) ∧
      (is_processed (process_event dedup o e).dedup a.transactionId = true ↔
        (relay_transaction_data (mkEventData a e) o).success = true)) := by
  constructor
  · intro hp
    simp [process_event, he, hp]
  · intro hnp
    cases hs : (relay_transaction_data (mkEventData a e) o).success
    · simp [process_event, he, hnp, hs]
    · simp [process_event, he, hnp, hs, is_processed_mark_self]

/-- Witness for `C3_thm`: a fresh sample event relayed with HTTP 200 gets
its id inserted. -/
theorem C3_witness :
    (process_event [] all200 sampleEvent).dedup =
      mark_as_processed [] sampleArgs.transactionId :=
  ((C3_thm [] all200 sampleEvent sampleArgs rfl).2 rfl).1 rfl

/-- Claim C4: an event whose transaction id is already marked processed is
skipped — `relay_transaction_data` is not invoked and zero POSTs are made;
presenting the same event in two different cycles, with the first relay
answered HTTP 200, yields exactly one POST in total. -/
theorem C4_thm (dedup : DedupSet) (o1 o2 : Nat → AttemptOutcome)
    (e : RawEvent) (a : EventArgs) (he : e.args = some a) :
    (is_processed dedup a.transactionId = true →
      process_event dedup o1 e = ⟨dedup, 0, false⟩) ∧
    (is_processed dedup a.transactionId = false →
      o1 0 = AttemptOutcome.response 200 →
      (process_event dedup o1 e).posts +
        (process_event (process_event dedup o1 e).dedup o2 e).posts = 1 ∧
      (process_event (process_event dedup o1 e).dedup o2 e).invokedRelay =
        false) := by
  constructor
  · intro hp
    simp [process_event, he, hp]
  · intro hnp h200
    have hrel : relay_transaction_data (mkEventData a e) o1 = ⟨true, 1, []⟩ := by
      simp [relay_transaction_data, relayLoop, attemptSucceeds, h200]
    simp [process_event, he, hnp, hrel, is_processed_mark_self]

/-- Witness for `C4_thm`: the sample event presented twice with an HTTP 200
endpoint produces one POST in total and no second relay invocation. -/
theorem C4_witness :
    (process_event [] all200 sampleEvent).posts +
      (process_event (process_event [] all200 sampleEvent).dedup all200
        sampleEvent).posts = 1 ∧
    (process_event (process_event [] all200 sampleEvent).dedup all200
        sampleEvent).invokedRelay = false :=
  (C4_thm [] all200 all200 sampleEvent sampleArgs rfl).2 rfl rfl

/-- Claim C10: the deduplication gate is keyed solely on the transaction
id — after one event is successfully relayed, a second event with the same
transaction id but arbitrary other fields (amount, recipient, chain id,
hashes, block number all universally quantified here) is skipped with no
relay attempt and no state change. -/
theorem C10_thm (dedup : DedupSet) (o1 o2 : Nat → AttemptOutcome)
    (e1 e2 : RawEvent) (a1 a2 : EventArgs)
    (h1 : e1.args = some a1) (h2 : e2.args = some a2)
    (hsame : a2.transactionId = a1.transactionId)
    (hnp : is_processed dedup a1.transactionId = false)
    (hsucc : (relay_transaction_data (mkEventData a1 e1) o1).success = true) :
    process_event (process_event dedup o1 e1).dedup o2 e2 =
      ⟨(process_event dedup o1 e1).dedup, 0, false⟩ := by
  have hd : (process_event dedup o1 e1).dedup =
      mark_as_processed dedup a1.transactionId := by
    simp [process_event, h1, hnp, hsucc]
  rw [hd]
  simp [process_event, h2, hsame, is_processed_mark_self]

/-- Witness for `C10_thm`: a second event sharing the sample transaction id
but differing in every other field is skipped without a POST. -/
theorem C10_witness :
    process_event (process_event [] all200 sampleEvent).dedup
        allTransportError sampleEvent2 =
      ⟨(process_event [] all200 sampleEvent).dedup, 0, false⟩ :=
  C10_thm [] all200 allTransportError sampleEvent sampleEvent2 sampleArgs
    sampleArgs2 rfl rfl rfl rfl rfl

/-- Claim C7: the JSON body handed to the relay endpoint carries exactly
the five keys `sourceTransactionId`, `destinationChainId`, `recipient`,
`amount`, `sourceTransactionHash` — in particular no `blockNumber` key —
and the `amount` value is the decimal-string rendering (`Nat.repr`) of the
arbitrary-precision integer amount of the event, with no floating-point
representation anywhere in the model. -/
theorem C7_thm (a : EventArgs) (e : RawEvent) :
    (relayPayload (mkEventData a e)).map Prod.fst =
      ["sourceTransactionId", "destinationChainId", "recipient", "amount",
        "sourceTransactionHash"] ∧
    (relayPayload (mkEventData a e)).lookup "blockNumber" = none ∧
    (relayPayload (mkEventData a e)).lookup "amount" =
      some (JsonValue.str (Nat.repr a.amount)) := by
  refine ⟨rfl, ?_, ?_⟩ <;> simp [relayPayload, mkEventData, List.lookup]

/-- Claim C5: a normal scanning cycle over height `h1` queries exactly
`[f, h1]` and leaves the cursor at `h1 + 1`; the next normal scanning cycle
therefore queries a range starting at `h1 + 1` — consecutive ranges are
contiguous and disjoint (the second start strictly exceeds the first end by
exactly one) — and across every cycle, whatever the environment, the
cursor is monotonically non-decreasing. -/
theorem C5_thm (i1 i2 h1 h2 : Nat) (evs1 evs2 : List RawEvent)
    (orc1 orc2 : Nat → Nat → AttemptOutcome) (f : Nat) (d : DedupSet)
    (hf1 : f ≤ h1) (hf2 : h1 + 1 ≤ h2) :
    (run_cycle i1 ⟨true, Except.ok h1, Except.ok evs1, orc1⟩ f d).queried =
      some (f, h1) ∧
    (run_cycle i1 ⟨true, Except.ok h1, Except.ok evs1, orc1⟩ f d).from_block =
      h1 + 1 ∧
    (run_cycle i2 ⟨true, Except.ok h2, Except.ok evs2, orc2⟩
        (run_cycle i1 ⟨true, Except.ok h1, Except.ok evs1, orc1⟩ f d).from_block
        (run_cycle i1 ⟨true, Except.ok h1, Except.ok evs1, orc1⟩ f d).dedup).queried =
      some (h1 + 1, h2) ∧
    h1 < h1 + 1 ∧
    (∀ i env g d2, g ≤ (run_cycle i env g d2).from_block) := by
  rw [run_cycle_scan_eq i1 h1 evs1 orc1 f d hf1]
  refine ⟨rfl, rfl, ?_, Nat.lt_succ_self h1, run_cycle_from_block_mono⟩
  rw [run_cycle_scan_eq i2 h2 evs2 orc2 (h1 + 1) _ hf2]

/-- Witness for `C5_thm`: two concrete empty-log scanning cycles at heights
10 and 20, starting from cursor 5. -/
theorem C5_witness :
    (run_cycle 15 ⟨true, Except.ok 10, Except.ok [], oracles200⟩ 5 []).queried =
      some (5, 10) ∧
    (run_cycle 15 ⟨true, Except.ok 10, Except.ok [], oracles200⟩ 5 []).from_block =
      10 + 1 ∧
    (run_cycle 15 ⟨true, Except.ok 20, Except.ok [], oracles200⟩
        (run_cycle 15 ⟨true, Except.ok 10, Except.ok [], oracles200⟩ 5 []).from_block
        (run_cycle 15 ⟨true, Except.ok 10, Except.ok [], oracles200⟩ 5 []).dedup).queried =
      some (10 + 1, 20) ∧
    10 < 10 + 1 ∧
    (∀ i env g d2, g ≤ (run_cycle i env g d2).from_block) :=
  C5_thm 15 15 10 20 [] [] oracles200 oracles200 5 [] (by omega) (by omega)

/-- Claim C6: an idle cycle — connection live but the reported height `h`
strictly below the cursor `f` — issues no log query, processes no event,
makes no POST, and leaves both the deduplication set and the cursor exactly
as they were; the only effect is the polling-interval sleep. -/
theorem C6_thm (i : Nat) (env : CycleEnv) (f : Nat) (d : DedupSet) (h : Nat)
    (hc : env.connected = true) (hh : env.height = Except.ok h)
    (hlt : h < f) :
    run_cycle i env f d = ⟨f, d, none, 0, [], [i]⟩ := by
  obtain ⟨c, hgt, lg, orc⟩ := env
  simp only at hc hh
  subst hc hh
  simp [run_cycle, hlt]

/-- Witness for `C6_thm`: height 5 below cursor 10 leaves everything
unchanged. -/
theorem C6_witness :
    run_cycle 15 ⟨true, Except.ok 5, Except.ok [], oracles200⟩ 10 ["aa"] =
      ⟨10, ["aa"], none, 0, [], [15]⟩ :=
  C6_thm 15 ⟨true, Except.ok 5, Except.ok [], oracles200⟩ 10 ["aa"] 5 rfl rfl
    (by omega)

/-- Claim C8: when a cycle raises — the height query fails, or the log
query over a non-empty range fails — the error is absorbed inside the loop
(the model is total on these environments), the cursor keeps its pre-cycle
value, the deduplication set is untouched, no POST is made, and the process
sleeps 60 seconds and then the polling interval before the next cycle. -/
theorem C8_thm (i : Nat) (env : CycleEnv) (f : Nat) (d : DedupSet)
    (hc : env.connected = true) :
    (env.height = Except.error () →
      run_cycle i env f d = ⟨f, d, none, 0, [], [60, i]⟩) ∧
    (∀ h, env.height = Except.ok h → f ≤ h → env.logs = Except.error () →
      run_cycle i env f d = ⟨f, d, some (f, h), 0, [], [60, i]⟩) := by
  obtain ⟨c, hgt, lg, orc⟩ := env
  simp only at hc
  subst hc
  constructor
  · intro hh
    simp only at hh
    subst hh
    simp [run_cycle]
  · intro h hh hfh hl
    simp only at hh hl
    subst hh hl
    simp [run_cycle, Nat.not_lt.mpr hfh]

/-- Witness for `C8_thm`: a failing height query at cursor 7 preserves the
cursor and sleeps 60 then 15. -/
theorem C8_witness :
    run_cycle 15 ⟨true, Except.error (), Except.ok [], oracles200⟩ 7 ["aa"] =
      ⟨7, ["aa"], none, 0, [], [60, 15]⟩ :=
  (C8_thm 15 ⟨true, Except.error (), Except.ok [], oracles200⟩ 7 ["aa"] rfl).1
    rfl

/-- Claim C9: a failure while processing one event is caught at event
granularity — in a scanning cycle over three events whose second has
malformed `args` (normalization fails), the relayer is still invoked for
the first and third events (whatever their relay outcomes), and the cursor
still advances to `h + 1` at the end of the cycle. -/
theorem C9_thm (i f h : Nat) (d : DedupSet)
    (orc : Nat → Nat → AttemptOutcome) (e1 e2 e3 : RawEvent)
    (a1 a3 : EventArgs)
    (h1 : e1.args = some a1) (h2 : e2.args = none) (h3 : e3.args = some a3)
    (hfh : f ≤ h)
    (hn1 : is_processed d a1.transactionId = false)
    (hn3 : is_processed d a3.transactionId = false)
    (hne : a3.transactionId ≠ a1.transactionId) :
    (run_cycle i ⟨true, Except.ok h, Except.ok [e1, e2, e3], orc⟩ f
        d).invoked = [true, false, true] ∧
    (run_cycle i ⟨true, Except.ok h, Except.ok [e1, e2, e3], orc⟩ f
        d).from_block = h + 1 := by
  have hd1 : (process_event d (orc 0) e1).invokedRelay = true ∧
      ((process_event d (orc 0) e1).dedup = d ∨
        (process_event d (orc 0) e1).dedup =
          mark_as_processed d a1.transactionId) := by
    cases hs : (relay_transaction_data (mkEventData a1 e1) (orc 0)).success
    · simp [process_event, h1, hn1, hs]
    · simp [process_event, h1, hn1, hs]
  have he2 : ∀ dd o, process_event dd o e2 = ⟨dd, 0, false⟩ := by
    intro dd o
    simp [process_event, h2]
  have hn3b : is_processed (process_event d (orc 0) e1).dedup
      a3.transactionId = false := by
    rcases hd1.2 with hq | hq <;> rw [hq]
    · exact hn3
    · rw [is_processed_mark_other d a1.transactionId a3.transactionId hne]
      exact hn3
  have he3 : ∀ dd, is_processed dd a3.transactionId = false →
      (process_event dd (orc 2) e3).invokedRelay = true := by
    intro dd hdd
    cases hs : (relay_transaction_data (mkEventData a3 e3) (orc 2)).success <;>
      simp [process_event, h3, hdd, hs]
  rw [run_cycle_scan_eq i h [e1, e2, e3] orc f d hfh]
  refine ⟨?_, rfl⟩
  simp only [process_events, he2, hd1.1, he3 _ hn3b]

/-- Witness for `C9_thm`: three concrete events, the middle one malformed,
relayed against an HTTP 200 endpoint from cursor 0 at height 10. -/
theorem C9_witness :
    (run_cycle 15
        ⟨true, Except.ok 10, Except.ok [sampleEvent, badEvent, sampleEvent3],
          oracles200⟩ 0 []).invoked = [true, false, true] ∧
    (run_cycle 15
        ⟨true, Except.ok 10, Except.ok [sampleEvent, badEvent, sampleEvent3],
          oracles200⟩ 0 []).from_block = 10 + 1 :=
  C9_thm 15 0 10 [] oracles200 sampleEvent badEvent sampleEvent3 sampleArgs
    sampleArgs3 rfl rfl rfl (by omega) rfl rfl (by decide)

end BugsHunt
